import Mathlib

/-!
Shallow embedding of the Credential Artifact Registry of
`aries_cloudagent/anoncreds/default/legacy_indy/registry.py`
(class `LegacyIndyRegistry`): identifier derivation, schema /
credential-definition / revocation-registry registration and resolution,
revocation status-list registration, and the ledger read-repair routine
`fix_ledger_entry`.

Python async functions become pure Lean functions; the external ledger and
wallet collaborators are explicit state (`World`) or outcome parameters;
raised exceptions become an `Except RaisedErr` result.  Python dicts with a
fixed key set become structures; heterogeneous metadata dicts become
association lists.  `int(rec.cred_rev_id)` (a decimal string in storage) is
modelled as the already-parsed `Nat`.
-/

/-- Truthiness-aware `x or default` on an optional string: Python's `or`
falls through on both `None` and the empty string. -/
def pyStrOr (x : Option String) (dflt : String) : String :=
  match x with
  | none => dflt
  | some s => if s = "" then dflt else s

/-- Python falsiness of an optional string setting (`not value`):
true on `None` and on `""`. -/
def pyFalsy (x : Option String) : Bool :=
  match x with
  | none => true
  | some s => s == ""

/-- Python `needle in haystack` on strings (substring containment). -/
def pyStrIn (needle haystack : String) : Bool :=
  go haystack.data
where
  go : List Char → Bool
  | [] => needle.data.isPrefixOf []
  | c :: cs => needle.data.isPrefixOf (c :: cs) || go cs

/-- Python `s.rstrip('/')`. -/
def pyRstripSlash (s : String) : String :=
  String.mk ((s.data.reverse.dropWhile (fun c => c == '/')).reverse)

/-- Python `s.split(':')[0]`: the text before the first colon. -/
def firstColonField (s : String) : String :=
  String.mk (s.data.takeWhile (fun c => c != ':'))

/-- `registry.py`: `DEFAULT_CRED_DEF_TAG = "default"`. -/
def DEFAULT_CRED_DEF_TAG : String := "default"

/-- `registry.py`: `DEFAULT_SIGNATURE_TYPE = "CL"`. -/
def DEFAULT_SIGNATURE_TYPE : String := "CL"

/-- `AnonCredsSchema`: the domain schema artifact. -/
structure AnonCredsSchema where
  issuer_id : String
  attr_names : List String
  name : String
  version : String
deriving DecidableEq, Repr

/-- `CredDef`: the domain credential-definition artifact.  `type` and `tag`
may be unset (`None` in Python); `value` is kept opaque (its serialized
form). -/
structure CredDef where
  issuer_id : String
  schema_id : String
  type : Option String
  tag : Option String
  value : String
deriving DecidableEq, Repr

/-- `GetSchemaResult`: a resolved schema together with its resolution and
ledger metadata.  `schema_metadata` is the dict holding the ledger-assigned
`"seqNo"`. -/
structure GetSchemaResult where
  schema : AnonCredsSchema
  schema_id : String
  resolution_metadata : List (String × String)
  schema_metadata : List (String × Nat)
deriving DecidableEq, Repr

/-- `RevRegDefValue`: the `value` sub-object of a revocation registry
definition. -/
structure RevRegDefValue where
  max_cred_num : Nat
  public_keys : String
  tails_hash : String
  tails_location : String
deriving DecidableEq, Repr

/-- `RevRegDef`: the domain revocation-registry-definition artifact. -/
structure RevRegDef where
  issuer_id : String
  cred_def_id : String
  type : String
  tag : String
  value : RevRegDefValue
deriving DecidableEq, Repr

/-- `RevStatusList`: the domain revocation status list. -/
structure RevStatusList where
  issuer_id : String
  rev_reg_id : String
  revocation_list : List Nat
  current_accumulator : Option String
deriving DecidableEq, Repr

/-- `LegacyIndyRegistry.make_schema_id`:
`f"{schema.issuer_id}:2:{schema.name}:{schema.version}"`. -/
def make_schema_id (schema : AnonCredsSchema) : String :=
  schema.issuer_id ++ ":2:" ++ schema.name ++ ":" ++ schema.version

/-- `LegacyIndyRegistry.make_rev_reg_def_id`:
`f"{issuer_id}:4:{cred_def_id}:{type}:{tag}"`. -/
def make_rev_reg_def_id (rev_reg_def : RevRegDef) : String :=
  rev_reg_def.issuer_id ++ ":4:" ++ rev_reg_def.cred_def_id ++ ":" ++
    rev_reg_def.type ++ ":" ++ rev_reg_def.tag

/-- Domain (AnonCreds) error kinds raised by the registry.  The classes live
in `anoncreds/base.py`; per the spec the already-exists kinds carry the
existing artifact reconstructed from the ledger
(`AlreadyExists(existing_artifact)`), so the carried payloads are fields
here; each constructor records exactly what the `registry.py` call sites
pass.  `resolutionError`'s `cause` models the `from err` exception chain. -/
inductive AnonCredsErr where
  | resolutionError (message : String) (cause : Option String)
  | objectNotFound (message : String)
  | registrationError (message : String)
  | schemaAlreadyExists (message : String) (obj_id : String) (schema : AnonCredsSchema)
  | objectAlreadyExists (message : String) (obj : Option CredDef)
deriving DecidableEq, Repr

/-- Any exception escaping a registry method: a domain AnonCreds error, a
native `LedgerError` that was not caught at the registry boundary, a
`RevocationError` (from `_check_url`), or an uncaught Python `KeyError`. -/
inductive RaisedErr where
  | anoncreds (e : AnonCredsErr)
  | ledger (message : String)
  | revocation (message : String)
  | keyError (key : String)
deriving DecidableEq, Repr

/-- `make_cred_def_id(schema, cred_def)`: derive a credential definition id,
`f"{cred_def.issuer_id}:3:{signature_type}:{seq_no}:{tag}"`, where
`signature_type = cred_def.type or DEFAULT_SIGNATURE_TYPE`,
`tag = cred_def.tag or DEFAULT_CRED_DEF_TAG`, and
`seq_no = str(schema.schema_metadata["seqNo"])`; a missing `"seqNo"` key
(Python `KeyError`) is re-raised as `AnonCredsRegistrationError`. -/
def make_cred_def_id (schema : GetSchemaResult) (cred_def : CredDef) :
    Except RaisedErr String :=
  let signature_type := pyStrOr cred_def.type DEFAULT_SIGNATURE_TYPE
  let tag := pyStrOr cred_def.tag DEFAULT_CRED_DEF_TAG
  match schema.schema_metadata.lookup "seqNo" with
  | none =>
      .error (.anoncreds (.registrationError
        "Legacy Indy only supports schemas from Legacy Indy"))
  | some n =>
      .ok (cred_def.issuer_id ++ ":3:" ++ signature_type ++ ":" ++
        toString n ++ ":" ++ tag)

/-! ### Python `urllib.parse.urlparse`, restricted to the fields `_check_url` reads -/

/-- Characters CPython's `urlsplit` allows in a URL scheme. -/
def schemeChar (c : Char) : Bool :=
  c.isAlpha || c.isDigit || c == '+' || c == '-' || c == '.'

/-- The `scheme`/`netloc`/`path` fields of a parse result. -/
structure UrlParts where
  scheme : String
  netloc : String
  path : String
deriving DecidableEq, Repr

/-- Scheme split of `urlsplit`: if the text up to the first `':'` is a
non-empty run of scheme characters starting with a letter, it is the
(lowercased) scheme and parsing continues after the colon. -/
def splitScheme (cs : List Char) : List Char × List Char :=
  let before := cs.takeWhile (fun c => c != ':')
  match cs.dropWhile (fun c => c != ':') with
  | ':' :: rest =>
      if (match before with | c :: _ => c.isAlpha | [] => false)
          && before.all schemeChar then
        (before.map Char.toLower, rest)
      else ([], cs)
  | _ => ([], cs)

/-- Netloc split of `urlsplit`: after a leading `"//"`, the netloc runs to
the next `'/'`, `'?'` or `'#'`. -/
def splitNetloc (cs : List Char) : List Char × List Char :=
  match cs with
  | '/' :: '/' :: rest =>
      (rest.takeWhile (fun c => c != '/' && c != '?' && c != '#'),
       rest.dropWhile (fun c => c != '/' && c != '?' && c != '#'))
  | _ => ([], cs)

/-- Params split of `urlparse` (`_splitparams`): a `';'` in the last path
segment starts the params, which are cut from the path. -/
def dropParams (cs : List Char) : List Char :=
  if cs.contains '/' then
    let lastSeg := ((cs.reverse.takeWhile (fun c => c != '/'))).reverse
    if lastSeg.contains ';' then
      cs.take (cs.length - lastSeg.length) ++
        lastSeg.takeWhile (fun c => c != ';')
    else cs
  else if cs.contains ';' then cs.takeWhile (fun c => c != ';') else cs

/-- `urllib.parse.urlparse`, keeping only the `scheme`, `netloc` and `path`
fields used by `LegacyIndyRegistry._check_url` (fragment, query and params
are split off and discarded). -/
def urlparse (url : String) : UrlParts :=
  let (schemeCs, rest1) := splitScheme url.data
  let (netlocCs, rest2) := splitNetloc rest1
  let beforeFrag := rest2.takeWhile (fun c => c != '#')
  let beforeQuery := beforeFrag.takeWhile (fun c => c != '?')
  { scheme := String.mk schemeCs
    netloc := String.mk netlocCs
    path := String.mk (dropParams beforeQuery) }

/-- `LegacyIndyRegistry._check_url` as a predicate: Python raises
`RevocationError` unless `parsed.scheme and parsed.netloc and parsed.path`
are all truthy (non-empty). -/
def check_url_ok (url : String) : Bool :=
  let parsed := urlparse url
  !(parsed.scheme == "") && !(parsed.netloc == "") && !(parsed.path == "")

/-! ### Registrar and Resolver for schemas and credential definitions

The ledger collaborator is abstracted by outcome parameters: the registry
code under verification only branches on what the awaited ledger call
returned or raised. -/

/-- Registration state constants (`STATE_FINISHED`, ...). -/
inductive RegState where
  | finished
  | failed
  | wait
  | action
deriving DecidableEq, Repr

/-- The Indy wire object built by `register_schema` and returned inside a
`LedgerObjectAlreadyExistsError` (keys `ver`/`id`/`name`/`version`/
`attrNames`, `seqNo` omitted: it is `None` on the write path). -/
structure IndySchemaObj where
  ver : String
  id : String
  name : String
  version : String
  attrNames : List String
deriving DecidableEq, Repr

/-- The ledger object returned by `ledger.get_schema` (keys `id`/`name`/
`ver`/`attrNames`/`seqNo`; here `ver` holds the schema version). -/
structure LedgerSchemaObj where
  id : String
  name : String
  ver : String
  attrNames : List String
  seqNo : Nat
deriving DecidableEq, Repr

/-- The ledger object returned by `ledger.get_credential_definition`
(keys `id`/`schemaId`/`type`/`tag`/`value`). -/
structure LedgerCredDefObj where
  id : String
  schemaId : String
  type : String
  tag : String
  value : String
deriving DecidableEq, Repr

/-- Outcome of an awaited ledger read: the object (or `None` when absent),
or a raised `LedgerError`. -/
inductive ReadOutcome (α : Type) where
  | ok (obj : Option α)
  | ledgerError (message : String)
deriving DecidableEq, Repr

/-- `SchemaState` of a `SchemaResult`. -/
structure SchemaState where
  state : RegState
  schema_id : String
  schema : AnonCredsSchema
deriving DecidableEq, Repr

/-- `SchemaResult`. -/
structure SchemaResult where
  job_id : Option String
  schema_state : SchemaState
  registration_metadata : List (String × Nat)
  schema_metadata : List (String × Nat)
deriving DecidableEq, Repr

/-- `CredDefState` of a `CredDefResult`. -/
structure CredDefState where
  state : RegState
  credential_definition_id : String
  credential_definition : CredDef
deriving DecidableEq, Repr

/-- `CredDefResult`. -/
structure CredDefResult where
  job_id : Option String
  credential_definition_state : CredDefState
  registration_metadata : List (String × Nat)
  credential_definition_metadata : List (String × Nat)
deriving DecidableEq, Repr

/-- Outcome of the awaited `ledger.send_schema`: the ledger-assigned
sequence number, a `LedgerObjectAlreadyExistsError` (whose `message` and
`obj = (schema_id, schema_dict)` the handler reads), or another
`LedgerError`. -/
inductive SendSchemaOutcome where
  | ok (seq_no : Nat)
  | alreadyExists (message : String) (obj_id : String) (obj : IndySchemaObj)
  | ledgerError (message : String)
deriving DecidableEq, Repr

/-- `LegacyIndyRegistry.get_schema(profile, schema_id)`.
`ledgerAvailable`/`walletTypeSet` model `get_ledger_for_identifier`
returning a ledger and the `wallet.type` setting; `outcome` is the awaited
`ledger.get_schema(schema_id)`.  A `LedgerError` raised during the read is
caught and re-raised as `AnonCredsResolutionError` with the cause chained
(`from err`); an absent object raises `AnonCredsObjectNotFound` (not a
`LedgerError`, so it escapes the `except LedgerError` clause unchanged). -/
def get_schema (ledgerAvailable walletTypeSet : Bool) (ledger_id : Option String)
    (schema_id : String) (outcome : ReadOutcome LedgerSchemaObj) :
    Except RaisedErr GetSchemaResult :=
  if !ledgerAvailable then
    .error (.anoncreds (.resolutionError
      (if walletTypeSet then "No ledger available"
       else "No ledger available: missing wallet-type?") none))
  else
    match outcome with
    | .ledgerError m =>
        .error (.anoncreds (.resolutionError "Failed to retrieve schema" (some m)))
    | .ok none =>
        .error (.anoncreds (.objectNotFound
          ("Credential definition not found: " ++ schema_id)))
    | .ok (some s) =>
        .ok { schema :=
                { issuer_id := firstColonField s.id
                  attr_names := s.attrNames
                  name := s.name
                  version := s.ver }
              schema_id := s.id
              resolution_metadata :=
                [("ledger_id", match ledger_id with | some l => l | none => "")]
              schema_metadata := [("seqNo", s.seqNo)] }

/-- `LegacyIndyRegistry.register_schema(profile, schema, options)`.
On `LedgerObjectAlreadyExistsError` the handler rebuilds the schema from
the ledger's returned copy `err.obj[1]` and raises
`AnonCredsSchemaAlreadyExists(err.message, (err.obj[0], schema))`; other
ledger errors become `AnonCredsRegistrationError`. -/
def register_schema (ledgerAvailable walletTypeSet : Bool)
    (schema : AnonCredsSchema) (outcome : SendSchemaOutcome) :
    Except RaisedErr SchemaResult :=
  let schema_id := make_schema_id schema
  if !ledgerAvailable then
    .error (.anoncreds (.registrationError
      (if walletTypeSet then "No ledger available"
       else "No ledger available: missing wallet-type?")))
  else
    match outcome with
    | .ok seq_no =>
        .ok { job_id := none
              schema_state :=
                { state := .finished, schema_id := schema_id, schema := schema }
              registration_metadata := []
              schema_metadata := [("seqNo", seq_no)] }
    | .alreadyExists message obj_id obj =>
        .error (.anoncreds (.schemaAlreadyExists message obj_id
          { name := obj.name
            version := obj.version
            attr_names := obj.attrNames
            issuer_id := firstColonField obj.id }))
    | .ledgerError _ =>
        .error (.anoncreds (.registrationError "Failed to register schema"))

/-- `GetCredDefResult`: a resolved credential definition with metadata. -/
structure GetCredDefResult where
  credential_definition : CredDef
  credential_definition_id : String
  resolution_metadata : List (String × String)
  credential_definition_metadata : List (String × Nat)
deriving DecidableEq, Repr

/-- Outcome of the awaited `ledger.send_credential_definition`: sequence
number, `LedgerObjectAlreadyExistsError` (the handler only reads its
presence, not its payload), or another `LedgerError`. -/
inductive SendCredDefOutcome where
  | ok (seq_no : Nat)
  | alreadyExists (message : String)
  | ledgerError (message : String)
deriving DecidableEq, Repr

/-- `LegacyIndyRegistry.get_credential_definition(profile, cred_def_id)`.
The awaited `ledger.get_credential_definition` is NOT wrapped in any
`try/except`: a raised `LedgerError` propagates to the caller as-is
(modelled by the `.ledger` constructor); only an absent object raises the
domain `AnonCredsObjectNotFound`. -/
def get_credential_definition (ledgerAvailable walletTypeSet : Bool)
    (cred_def_id : String) (outcome : ReadOutcome LedgerCredDefObj) :
    Except RaisedErr GetCredDefResult :=
  if !ledgerAvailable then
    .error (.anoncreds (.resolutionError
      (if walletTypeSet then "No ledger available"
       else "No ledger available: missing wallet-type?") none))
  else
    match outcome with
    | .ledgerError m => .error (.ledger m)
    | .ok none =>
        .error (.anoncreds (.objectNotFound
          ("Credential definition not found: " ++ cred_def_id)))
    | .ok (some cd) =>
        .ok { credential_definition :=
                { issuer_id := firstColonField cd.id
                  schema_id := cd.schemaId
                  type := some cd.type
                  tag := some cd.tag
                  value := cd.value }
              credential_definition_id := cd.id
              resolution_metadata := []
              credential_definition_metadata := [] }

/-- `LegacyIndyRegistry.register_credential_definition`.
`inWallet` models `issuer.credential_definition_in_wallet(cred_def_id)` and
`resolveOutcome` the ledger read performed by the wallet-vs-ledger
consistency pre-check (which only intercepts `AnonCredsObjectNotFound`;
any other error from the pre-check propagates).  On
`LedgerObjectAlreadyExistsError` from the submit, both branches raise
`AnonCredsObjectAlreadyExists` with a message only — no artifact payload is
attached. -/
def register_credential_definition (ledgerAvailable walletTypeSet : Bool)
    (profileName : String) (inWallet : Bool)
    (resolveOutcome : ReadOutcome LedgerCredDefObj)
    (schema : GetSchemaResult) (credential_definition : CredDef)
    (options : List (String × Nat)) (outcome : SendCredDefOutcome) :
    Except RaisedErr CredDefResult := do
  let cred_def_id ← make_cred_def_id schema credential_definition
  if !ledgerAvailable then
    .error (.anoncreds (.registrationError
      (if walletTypeSet then "No ledger available"
       else "No ledger available: missing wallet-type?")))
  else do
    if inWallet then
      match get_credential_definition ledgerAvailable walletTypeSet
          cred_def_id resolveOutcome with
      | .error (.anoncreds (.objectNotFound _)) =>
          .error (.anoncreds (.registrationError
            ("Credential definition with id " ++ cred_def_id ++
             " already exists in wallet but not on the ledger")))
      | .error e => .error e
      | .ok _ => pure ()
    match outcome with
    | .ok seq_no =>
        .ok { job_id := none
              credential_definition_state :=
                { state := .finished
                  credential_definition_id := cred_def_id
                  credential_definition := credential_definition }
              registration_metadata := []
              credential_definition_metadata := ("seqNo", seq_no) :: options }
    | .alreadyExists _ =>
        if inWallet then
          .error (.anoncreds (.objectAlreadyExists
            ("Credential definition with id " ++ cred_def_id ++
             " already exists in wallet and on ledger.") none))
        else
          .error (.anoncreds (.objectAlreadyExists
            ("Credential definition " ++ cred_def_id ++
             " is on ledger but not in wallet " ++ profileName) none))
    | .ledgerError _ =>
        .error (.anoncreds (.registrationError
          "Failed to register credential definition"))

/-! ### Revocation reconciliation (`fix_ledger_entry`) and status-list
registration

The ledger's revocation side and the wallet's revocation records are
explicit state (`World`); the registry code threads it through each ledger
or wallet access. -/

/-- `IssuerCredRevRecord.STATE_REVOKED`. -/
def STATE_REVOKED : String := "revoked"

/-- `IssuerCredRevRecord.STATE_ISSUED`. -/
def STATE_ISSUED : String := "issued"

/-- A wallet `IssuerCredRevRecord` (`cred_rev_id` is stored as a decimal
string; the model keeps the parsed `Nat` the code computes with
`int(rec.cred_rev_id)`). -/
structure IssuerCredRevRecord where
  rev_reg_id : String
  cred_rev_id : Nat
  state : String
deriving DecidableEq, Repr

/-- The `value` object of the ledger's revocation registry delta
(`rev_reg_delta["value"]`): revoked indices plus current accumulator. -/
structure RevRegDelta where
  revoked : List Nat
  accum : String
deriving DecidableEq, Repr

/-- A revocation recovery transaction: the entry republishing a set of
credential indices (the `revoked` list of its `value`). -/
structure RecoveryTxn where
  revoked : List Nat
deriving DecidableEq, Repr

/-- The `result` object of a ledger write response
(`response["result"]`, with `txnMetadata.seqNo` inside). -/
structure TxnResultObj where
  seqNo : Nat
deriving DecidableEq, Repr

/-- External ledger + wallet state visible to the reconciliation engine:
the ledger's revoked-index set and accumulator for the one revocation
registry under repair, the wallet's `IssuerCredRevRecord`s, the log of
entries submitted via `ledger.send_revoc_reg_entry`, and the next
ledger-assigned sequence number. -/
structure World where
  ledgerRevoked : List Nat
  ledgerAccum : String
  walletRecs : List IssuerCredRevRecord
  submissions : List RecoveryTxn
  nextSeqNo : Nat
deriving DecidableEq, Repr

/-- Modelled from the spec: the ledger collaborator's
`send_revoc_reg_entry` write (`BaseLedger`, outside `src/`).  Per the spec
"republishing an already-published index must be a no-op on the ledger
side", so the entry's indices are unioned into the ledger's revoked set;
the response carries the assigned sequence number under
`result.txnMetadata.seqNo`. -/
def send_revoc_reg_entry (w : World) (txn : RecoveryTxn) :
    World × TxnResultObj :=
  ({ w with
      ledgerRevoked :=
        w.ledgerRevoked ++ txn.revoked.filter (fun i => i ∉ w.ledgerRevoked)
      submissions := w.submissions ++ [txn]
      nextSeqNo := w.nextSeqNo + 1 },
   { seqNo := w.nextSeqNo })

/-- Modelled from the spec: `generate_ledger_rrrecovery_txn`
(`aries_cloudagent/revocation/recover.py`, not under `src/`).  Per the spec
it computes "a corrective transaction that republishes exactly the missed
indices ... only the precise missing set", using the genesis material to
read the ledger's current revoked set; here the ledger's revoked set is
passed in from `World`. -/
def generate_ledger_rrrecovery_txn (genesis_transactions : String)
    (rev_reg_id : String) (set_revoked : List Nat)
    (ledger_revoked : List Nat) : RecoveryTxn :=
  { revoked := set_revoked.filter (fun i => i ∉ ledger_revoked) }

/-- `LegacyIndyRegistry.fix_ledger_entry(profile, rev_status_list,
apply_ledger_update, genesis_transactions)`.  Fetches the ledger delta,
collects the wallet's revoked record ids for the registry, counts those
missing from the delta's revoked set (`rec_count`); when any are missing
it computes the recovery transaction over ALL wallet-revoked ids and, if
`apply_ledger_update`, submits it (`"CL_ACCUM"`) and returns the
response's `result`; otherwise corrective/applied stay the empty dict
(`none`).  The accumulator-mismatch counter is computed but unused in the
source and is likewise discarded here.  (The apply branch's
`session.inject_or(BaseLedger)` re-injection is modelled as the same
available ledger that served the delta fetch.) -/
def fix_ledger_entry (w : World) (rev_status_list : RevStatusList)
    (apply_ledger_update : Bool) (genesis_transactions : String) :
    World × RevRegDelta × Option RecoveryTxn × Option TxnResultObj :=
  let rev_reg_delta : RevRegDelta :=
    { revoked := w.ledgerRevoked, accum := w.ledgerAccum }
  let recs := w.walletRecs.filter
    (fun r => r.rev_reg_id == rev_status_list.rev_reg_id)
  let revoked_ids :=
    (recs.filter (fun r => r.state == STATE_REVOKED)).map (fun r => r.cred_rev_id)
  let rec_count :=
    (revoked_ids.filter (fun i => i ∉ rev_reg_delta.revoked)).length
  if rec_count > 0 then
    let recovery_txn := generate_ledger_rrrecovery_txn genesis_transactions
      rev_status_list.rev_reg_id revoked_ids w.ledgerRevoked
    if apply_ledger_update then
      let (w2, resp) := send_revoc_reg_entry w recovery_txn
      (w2, rev_reg_delta, some recovery_txn, some resp)
    else
      (w, rev_reg_delta, some recovery_txn, none)
  else
    (w, rev_reg_delta, none, none)

/-- `RevStatusListState` of a `RevStatusListResult`. -/
structure RevStatusListState where
  state : RegState
  revocation_status_list : RevStatusList
deriving DecidableEq, Repr

/-- `RevStatusListResult`. -/
structure RevStatusListResult where
  job_id : Option String
  revocation_status_list_state : RevStatusListState
  registration_metadata : List (String × Nat)
  revocation_status_list_metadata : List (String × Nat)
deriving DecidableEq, Repr

/-- Outcome of the awaited initial `ledger.send_revoc_reg_entry` in
`register_revocation_status_list`: the response, or a raised
`LedgerTransactionError` whose `roll_up` text the handler inspects. -/
inductive SendEntryOutcome where
  | ok (res : TxnResultObj)
  | txnError (roll_up : String)
deriving DecidableEq, Repr

/-- `LegacyIndyRegistry.register_revocation_status_list`.  Submits the
accumulator entry (outcome given by `first_send`).  On
`LedgerTransactionError`: a `roll_up` containing `"InvalidClientRequest"`
triggers one `fix_ledger_entry(profile, rev_status_list, True, genesis)`
call whose applied transaction replaces the ledger response
(`rev_entry_res = {"result": res}`); a `roll_up` containing
`"InvalidClientTaaAcceptanceError"` (and not the former) raises
`AnonCredsRegistrationError`; anything else raises
`AnonCredsRegistrationError` with the unknown-issue message.  The final
metadata extraction `rev_entry_res["result"]["txnMetadata"]["seqNo"]`
raises `KeyError` when the repair applied nothing (`res = {}`). -/
def register_revocation_status_list (w : World) (rev_reg_def : RevRegDef)
    (rev_status_list : RevStatusList) (genesis_transactions : String)
    (first_send : SendEntryOutcome) :
    World × Except RaisedErr RevStatusListResult :=
  let finish (w' : World) (res : Option TxnResultObj) :
      World × Except RaisedErr RevStatusListResult :=
    match res with
    | none => (w', .error (.keyError "txnMetadata"))
    | some r =>
        (w', .ok { job_id := none
                   revocation_status_list_state :=
                     { state := .finished
                       revocation_status_list := rev_status_list }
                   registration_metadata := []
                   revocation_status_list_metadata := [("seqNo", r.seqNo)] })
  match first_send with
  | .ok res => finish w (some res)
  | .txnError roll_up =>
      if pyStrIn "InvalidClientRequest" roll_up then
        let (w2, _delta, _rec, applied) :=
          fix_ledger_entry w rev_status_list true genesis_transactions
        finish w2 applied
      else if pyStrIn "InvalidClientTaaAcceptanceError" roll_up then
        (w, .error (.anoncreds (.registrationError
          "Ledger update failed due to TAA Issue")))
      else
        (w, .error (.anoncreds (.registrationError
          "Ledger update failed due to unknown issue")))

/-- `RevRegDefState` of a `RevRegDefResult`. -/
structure RevRegDefState where
  state : RegState
  revocation_registry_definition_id : String
  revocation_registry_definition : RevRegDef
deriving DecidableEq, Repr

/-- `RevRegDefResult`. -/
structure RevRegDefResult where
  job_id : Option String
  revocation_registry_definition_state : RevRegDefState
  registration_metadata : List (String × Nat)
  revocation_registry_definition_metadata : List (String × Nat)
deriving DecidableEq, Repr

/-- Outcome of the awaited `ledger.send_revoc_reg_def`: the response's
`result.txnMetadata.seqNo`, or a raised `LedgerError`. -/
inductive SendRevRegDefOutcome where
  | ok (seq_no : Nat)
  | ledgerError (message : String)
deriving DecidableEq, Repr

/-- `LegacyIndyRegistry.register_revocation_registry_definition`.
Returns the raised-or-returned result, the final state of the (mutated in
place) `RevRegDef` argument, and how many ledger calls were made.
Steps: a falsy `tails_server_base_url` setting raises
`AnonCredsRegistrationError` at once; then `value.tails_location` is
overwritten with `tails_base_url.rstrip("/") + "/" + rev_reg_def_id`;
`_check_url` raises `RevocationError` (not a `LedgerError`, so it escapes
the `except LedgerError` clause) before the submit; a `LedgerError` from
the submit is re-raised as a bare `AnonCredsRegistrationError`. -/
def register_revocation_registry_definition
    (tails_server_base_url : Option String)
    (revocation_registry_definition : RevRegDef)
    (outcome : SendRevRegDefOutcome) :
    Except RaisedErr RevRegDefResult × RevRegDef × Nat :=
  if pyFalsy tails_server_base_url then
    (.error (.anoncreds (.registrationError
       "tails_server_base_url not configured")),
     revocation_registry_definition, 0)
  else
    let tails_base_url := (tails_server_base_url.getD "")
    let rev_reg_def_id :=
      make_rev_reg_def_id revocation_registry_definition
    let rrd :=
      { revocation_registry_definition with
          value := { revocation_registry_definition.value with
                       tails_location :=
                         pyRstripSlash tails_base_url ++ "/" ++ rev_reg_def_id } }
    if !(check_url_ok rrd.value.tails_location) then
      (.error (.revocation
         ("URI " ++ rrd.value.tails_location ++ " is not a valid URL")),
       rrd, 0)
    else
      match outcome with
      | .ok seq_no =>
          (.ok { job_id := none
                 revocation_registry_definition_state :=
                   { state := .finished
                     revocation_registry_definition_id := rev_reg_def_id
                     revocation_registry_definition := rrd }
                 registration_metadata := []
                 revocation_registry_definition_metadata := [("seqNo", seq_no)] },
           rrd, 1)
      | .ledgerError _ =>
          (.error (.anoncreds (.registrationError "")), rrd, 1)

/-! ### Derived vocabulary used by the theorem statements -/

/-- The wallet's locally-revoked credential indices for a revocation
registry: the `cred_rev_id`s of its records in state `STATE_REVOKED`. -/
def walletRevokedIds (w : World) (rev_reg_id : String) : List Nat :=
  ((w.walletRecs.filter (fun r => r.rev_reg_id == rev_reg_id)).filter
     (fun r => r.state == STATE_REVOKED)).map (fun r => r.cred_rev_id)

/-- The missed publications: locally-revoked indices absent from the
ledger's revoked-index set. -/
def missedIds (w : World) (rev_reg_id : String) : List Nat :=
  (walletRevokedIds w rev_reg_id).filter (fun i => i ∉ w.ledgerRevoked)

/-- Overwrite a revocation registry definition's `value.tails_location`. -/
def withTailsLocation (rrd : RevRegDef) (loc : String) : RevRegDef :=
  { rrd with value := { rrd.value with tails_location := loc } }

/-! ### Theorems -/

/-- Splitting at a separator character that occurs in neither left part is
unambiguous. -/
theorem append_sep_inj (a : List Char) :
    ∀ (b v₁ v₂ : List Char), ':' ∉ a → ':' ∉ b →
      a ++ ':' :: v₁ = b ++ ':' :: v₂ → a = b ∧ v₁ = v₂ := by
  induction a with
  | nil =>
      intro b v₁ v₂ _ hb h
      cases b with
      | nil => simpa using h
      | cons c bs =>
          simp only [List.nil_append, List.cons_append, List.cons.injEq] at h
          exact absurd (h.1 ▸ List.mem_cons_self c bs) hb
  | cons c as ih =>
      intro b v₁ v₂ ha hb h
      cases b with
      | nil =>
          simp only [List.nil_append, List.cons_append, List.cons.injEq] at h
          exact absurd (h.1 ▸ List.mem_cons_self c as) ha
      | cons d bs =>
          simp only [List.cons_append, List.cons.injEq] at h
          obtain ⟨rfl, h2⟩ := h
          have := ih bs v₁ v₂ (fun hm => ha (List.mem_cons_of_mem _ hm))
            (fun hm => hb (List.mem_cons_of_mem _ hm)) h2
          exact ⟨by rw [this.1], this.2⟩

/-- Claim C6 (counterexample): two schemas with the same issuer that differ
in `name` (and in `version`) whose derived schema ids are nevertheless the
same string, because `make_schema_id` does not escape `':'` in the parts. -/
theorem c6_counterexample :
    make_schema_id { issuer_id := "i", attr_names := [], name := "a:1.0", version := "2.0" } =
      make_schema_id { issuer_id := "i", attr_names := [], name := "a", version := "1.0:2.0" } ∧
    ({ issuer_id := "i", attr_names := [], name := "a:1.0", version := "2.0" } : AnonCredsSchema).name ≠
      ({ issuer_id := "i", attr_names := [], name := "a", version := "1.0:2.0" } : AnonCredsSchema).name := by
  constructor
  · rfl
  · decide

/-- Claim C6 (amended): `make_schema_id` is deterministic — schemas with
identical `issuer_id`, `name` and `version` derive identical id strings —
and, for schemas with the same issuer whose names contain no `':'`,
schemas differing in `name` or in `version` derive different id strings. -/
theorem c6_schema_id_determinism_and_injectivity
    (s₁ s₂ : AnonCredsSchema)
    (hiss : s₁.issuer_id = s₂.issuer_id) :
    (s₁.name = s₂.name ∧ s₁.version = s₂.version →
       make_schema_id s₁ = make_schema_id s₂) ∧
    (':' ∉ s₁.name.data → ':' ∉ s₂.name.data →
       s₁.name ≠ s₂.name ∨ s₁.version ≠ s₂.version →
       make_schema_id s₁ ≠ make_schema_id s₂) := by
  constructor
  · intro ⟨hn, hv⟩
    unfold make_schema_id
    rw [hiss, hn, hv]
  · intro h₁ h₂ hdiff heq
    unfold make_schema_id at heq
    have hdata := congrArg String.data heq
    simp only [String.data_append, hiss, List.append_assoc] at hdata
    have hdata2 := List.append_cancel_left hdata
    have hsep : s₁.name.data ++ ':' :: s₁.version.data =
        s₂.name.data ++ ':' :: s₂.version.data := by
      simpa using List.append_cancel_left hdata2
    have hinj := append_sep_inj s₁.name.data s₂.name.data
      s₁.version.data s₂.version.data h₁ h₂ hsep
    rcases hdiff with hn | hv
    · exact hn (String.ext hinj.1)
    · exact hv (String.ext hinj.2)

/-- Witness for the amended C6 theorem at concrete schemas: determinism for
two schemas with a colon-containing name (differing only in their attribute
lists), and distinct ids for two colon-free schemas differing in version. -/
theorem c6_witness :
    (make_schema_id { issuer_id := "did:example:issuer1", attr_names := ["a"],
                      name := "degree:ba", version := "1.0" } =
       make_schema_id { issuer_id := "did:example:issuer1", attr_names := ["b"],
                        name := "degree:ba", version := "1.0" }) ∧
    (make_schema_id { issuer_id := "did:example:issuer1", attr_names := [],
                      name := "degree", version := "1.0" } ≠
       make_schema_id { issuer_id := "did:example:issuer1", attr_names := [],
                        name := "degree", version := "1.1" }) := by
  constructor
  · exact (c6_schema_id_determinism_and_injectivity
      { issuer_id := "did:example:issuer1", attr_names := ["a"],
        name := "degree:ba", version := "1.0" }
      { issuer_id := "did:example:issuer1", attr_names := ["b"],
        name := "degree:ba", version := "1.0" } rfl).1 ⟨rfl, rfl⟩
  · exact (c6_schema_id_determinism_and_injectivity
      { issuer_id := "did:example:issuer1", attr_names := [],
        name := "degree", version := "1.0" }
      { issuer_id := "did:example:issuer1", attr_names := [],
        name := "degree", version := "1.1" } rfl).2
      (by decide) (by decide) (Or.inr (by decide))

/-- Claim C5: `make_cred_def_id` succeeds exactly when the resolved
schema's metadata has the `"seqNo"` key — otherwise it raises the
caller-fixable `AnonCredsRegistrationError` — and on success returns
`issuer_id:3:signature_type:seq_no:tag`, with the signature type
defaulting to `"CL"` and the tag to `"default"` when unset. -/
theorem c5_make_cred_def_id_spec (schema : GetSchemaResult) (cred_def : CredDef) :
    ((∃ s, make_cred_def_id schema cred_def = .ok s) ↔
       (schema.schema_metadata.lookup "seqNo").isSome = true) ∧
    (∀ e, make_cred_def_id schema cred_def = .error e →
       e = .anoncreds (.registrationError
             "Legacy Indy only supports schemas from Legacy Indy") ∧
       schema.schema_metadata.lookup "seqNo" = none) ∧
    (∀ n, schema.schema_metadata.lookup "seqNo" = some n →
       make_cred_def_id schema cred_def =
         .ok (cred_def.issuer_id ++ ":3:" ++
           (match cred_def.type with
            | none => "CL"
            | some t => if t = "" then "CL" else t) ++ ":" ++ toString n ++ ":" ++
           (match cred_def.tag with
            | none => "default"
            | some t => if t = "" then "default" else t))) := by
  unfold make_cred_def_id pyStrOr DEFAULT_SIGNATURE_TYPE DEFAULT_CRED_DEF_TAG
  cases h : schema.schema_metadata.lookup "seqNo" with
  | none =>
      refine ⟨⟨fun ⟨s, hs⟩ => by simp at hs, fun hsome => by simp at hsome⟩, ?_, ?_⟩
      · intro e he
        refine ⟨?_, rfl⟩
        simpa using he.symm
      · intro n hn
        simp at hn
  | some m =>
      refine ⟨⟨fun _ => by simp, fun _ => ⟨_, rfl⟩⟩, ?_, ?_⟩
      · intro e he
        simp at he
      · intro n hn
        obtain rfl : m = n := by simpa using hn
        rfl

/-- Witness for C5: a concrete resolved schema with `seqNo = 15` and a
credential definition with unset signature type and tag. -/
theorem c5_witness :
    make_cred_def_id
      { schema := { issuer_id := "i", attr_names := [], name := "n", version := "v" }
        schema_id := "sid"
        resolution_metadata := []
        schema_metadata := [("seqNo", 15)] }
      { issuer_id := "did:example:issuer1", schema_id := "sid",
        type := none, tag := none, value := "val" } =
      .ok "did:example:issuer1:3:CL:15:default" := by
  have h := (c5_make_cred_def_id_spec
    { schema := { issuer_id := "i", attr_names := [], name := "n", version := "v" }
      schema_id := "sid"
      resolution_metadata := []
      schema_metadata := [("seqNo", 15)] }
    { issuer_id := "did:example:issuer1", schema_id := "sid",
      type := none, tag := none, value := "val" }).2.2 15 rfl
  simpa using h

/-- `fix_ledger_entry`, rephrased through `missedIds`: everything the
routine does is decided by the set of missed publications. -/
theorem fix_ledger_entry_eq (w : World) (rsl : RevStatusList)
    (apply_ledger_update : Bool) (genesis : String) :
    fix_ledger_entry w rsl apply_ledger_update genesis =
      if missedIds w rsl.rev_reg_id = [] then
        (w, { revoked := w.ledgerRevoked, accum := w.ledgerAccum }, none, none)
      else
        let txn : RecoveryTxn := { revoked := missedIds w rsl.rev_reg_id }
        if apply_ledger_update then
          ({ w with
              ledgerRevoked := w.ledgerRevoked ++
                (missedIds w rsl.rev_reg_id).filter (fun i => i ∉ w.ledgerRevoked)
              submissions := w.submissions ++ [txn]
              nextSeqNo := w.nextSeqNo + 1 },
           { revoked := w.ledgerRevoked, accum := w.ledgerAccum },
           some txn, some { seqNo := w.nextSeqNo })
        else
          (w, { revoked := w.ledgerRevoked, accum := w.ledgerAccum },
           some txn, none) := by
  show (if 0 < (missedIds w rsl.rev_reg_id).length then
          if apply_ledger_update then
            ({ w with
                ledgerRevoked := w.ledgerRevoked ++
                  (missedIds w rsl.rev_reg_id).filter (fun i => i ∉ w.ledgerRevoked)
                submissions := w.submissions ++
                  [{ revoked := missedIds w rsl.rev_reg_id }]
                nextSeqNo := w.nextSeqNo + 1 },
             ({ revoked := w.ledgerRevoked, accum := w.ledgerAccum } : RevRegDelta),
             some ({ revoked := missedIds w rsl.rev_reg_id } : RecoveryTxn),
             some ({ seqNo := w.nextSeqNo } : TxnResultObj))
          else
            (w, ({ revoked := w.ledgerRevoked, accum := w.ledgerAccum } : RevRegDelta),
             some ({ revoked := missedIds w rsl.rev_reg_id } : RecoveryTxn), none)
        else
          (w, ({ revoked := w.ledgerRevoked, accum := w.ledgerAccum } : RevRegDelta),
           none, none)) = _
  by_cases hnil : missedIds w rsl.rev_reg_id = []
  · rw [hnil]
    simp
  · rw [if_pos (List.length_pos.mpr hnil), if_neg hnil]

/-- Membership in the missed-publication set, spelled out. -/
theorem mem_missedIds (w : World) (rid : String) (i : Nat) :
    i ∈ missedIds w rid ↔
      ((∃ r ∈ w.walletRecs, r.rev_reg_id = rid ∧ r.state = STATE_REVOKED ∧
          r.cred_rev_id = i) ∧ i ∉ w.ledgerRevoked) := by
  unfold missedIds walletRevokedIds
  simp only [List.mem_filter, List.mem_map, decide_eq_true_eq, beq_iff_eq]
  constructor
  · rintro ⟨⟨r, ⟨⟨hr, hreg⟩, hst⟩, rfl⟩, hnot⟩
    exact ⟨⟨r, hr, hreg, hst, rfl⟩, hnot⟩
  · rintro ⟨⟨r, hr, hreg, hst, rfl⟩, hnot⟩
    exact ⟨⟨r, ⟨⟨hr, hreg⟩, hst⟩, rfl⟩, hnot⟩

/-- Claim C2: when every locally-revoked index is already in the ledger
delta's revoked set, `fix_ledger_entry` returns the fetched delta with
empty corrective and applied transactions and leaves the external state
untouched — nothing is submitted even with `apply_ledger_update = true`. -/
theorem c2_reconcile_noop (w : World) (rsl : RevStatusList)
    (apply_ledger_update : Bool) (genesis : String)
    (hsub : ∀ r ∈ w.walletRecs, r.rev_reg_id = rsl.rev_reg_id →
        r.state = STATE_REVOKED → r.cred_rev_id ∈ w.ledgerRevoked) :
    fix_ledger_entry w rsl apply_ledger_update genesis =
      (w, { revoked := w.ledgerRevoked, accum := w.ledgerAccum }, none, none) := by
  have hnil : missedIds w rsl.rev_reg_id = [] := by
    by_contra h
    obtain ⟨i, hi⟩ := List.exists_mem_of_ne_nil _ h
    rw [mem_missedIds] at hi
    obtain ⟨⟨r, hr, hreg, hst, rfl⟩, hnot⟩ := hi
    exact hnot (hsub r hr hreg hst)
  rw [fix_ledger_entry_eq, if_pos hnil]

/-- Witness for C2: wallet-revoked `{3, 7}` with ledger-revoked `{3, 7, 9}`
and `apply = true` — the reconciliation is a complete no-op. -/
theorem c2_witness :
    fix_ledger_entry
      { ledgerRevoked := [3, 7, 9], ledgerAccum := "accum-l",
        walletRecs := [{ rev_reg_id := "RR", cred_rev_id := 3, state := "revoked" },
                       { rev_reg_id := "RR", cred_rev_id := 7, state := "revoked" }],
        submissions := [], nextSeqNo := 5 }
      { issuer_id := "issuer", rev_reg_id := "RR", revocation_list := [3, 7],
        current_accumulator := some "accum-w" } true "genesis" =
      ({ ledgerRevoked := [3, 7, 9], ledgerAccum := "accum-l",
         walletRecs := [{ rev_reg_id := "RR", cred_rev_id := 3, state := "revoked" },
                        { rev_reg_id := "RR", cred_rev_id := 7, state := "revoked" }],
         submissions := [], nextSeqNo := 5 },
       { revoked := [3, 7, 9], accum := "accum-l" }, none, none) :=
  c2_reconcile_noop _ _ true "genesis" (by decide)

/-- Claim C1: when at least one locally-revoked index is missing from the
ledger delta, the corrective transaction computed by `fix_ledger_entry`
republishes exactly the missed indices — an index is in it iff it is
locally revoked and absent from the ledger's revoked set. -/
theorem c1_repair_exact_missed (w : World) (rsl : RevStatusList)
    (apply_ledger_update : Bool) (genesis : String)
    (hmiss : ∃ r ∈ w.walletRecs, r.rev_reg_id = rsl.rev_reg_id ∧
        r.state = STATE_REVOKED ∧ r.cred_rev_id ∉ w.ledgerRevoked) :
    ∃ txn, (fix_ledger_entry w rsl apply_ledger_update genesis).2.2.1 = some txn ∧
      ∀ i, i ∈ txn.revoked ↔
        ((∃ r ∈ w.walletRecs, r.rev_reg_id = rsl.rev_reg_id ∧
            r.state = STATE_REVOKED ∧ r.cred_rev_id = i) ∧
         i ∉ w.ledgerRevoked) := by
  obtain ⟨r, hr, hreg, hst, hnot⟩ := hmiss
  have hne : missedIds w rsl.rev_reg_id ≠ [] := by
    intro h
    have hmem : r.cred_rev_id ∈ missedIds w rsl.rev_reg_id :=
      (mem_missedIds _ _ _).mpr ⟨⟨r, hr, hreg, hst, rfl⟩, hnot⟩
    rw [h] at hmem
    exact absurd hmem (List.not_mem_nil _)
  refine ⟨{ revoked := missedIds w rsl.rev_reg_id }, ?_, fun i => mem_missedIds w rsl.rev_reg_id i⟩
  rw [fix_ledger_entry_eq, if_neg hne]
  cases apply_ledger_update <;> rfl

/-- Witness for C1: wallet-revoked `{3, 7}` with ledger-revoked `{3}` — the
corrective transaction covers `7` and not `3`, and applying it leaves the
ledger's revoked set at `{3, 7}`. -/
theorem c1_witness :
    (∃ txn, (fix_ledger_entry
        { ledgerRevoked := [3], ledgerAccum := "accum-l",
          walletRecs := [{ rev_reg_id := "RR", cred_rev_id := 3, state := "revoked" },
                         { rev_reg_id := "RR", cred_rev_id := 7, state := "revoked" }],
          submissions := [], nextSeqNo := 5 }
        { issuer_id := "issuer", rev_reg_id := "RR", revocation_list := [3, 7],
          current_accumulator := some "accum-w" } true "genesis").2.2.1 = some txn ∧
      7 ∈ txn.revoked ∧ 3 ∉ txn.revoked) ∧
    (fix_ledger_entry
        { ledgerRevoked := [3], ledgerAccum := "accum-l",
          walletRecs := [{ rev_reg_id := "RR", cred_rev_id := 3, state := "revoked" },
                         { rev_reg_id := "RR", cred_rev_id := 7, state := "revoked" }],
          submissions := [], nextSeqNo := 5 }
        { issuer_id := "issuer", rev_reg_id := "RR", revocation_list := [3, 7],
          current_accumulator := some "accum-w" } true "genesis").1.ledgerRevoked =
      [3, 7] := by
  have hx := c1_repair_exact_missed
      { ledgerRevoked := [3], ledgerAccum := "accum-l",
        walletRecs := [⟨"RR", 3, "revoked"⟩, ⟨"RR", 7, "revoked"⟩],
        submissions := [], nextSeqNo := 5 }
      ⟨"issuer", "RR", [3, 7], some "accum-w"⟩ true "genesis"
      ⟨⟨"RR", 7, "revoked"⟩, by decide, rfl, rfl, by decide⟩
  constructor
  · obtain ⟨txn, htxn, hmem⟩ := hx
    refine ⟨txn, htxn,
      (hmem 7).mpr ⟨⟨⟨"RR", 7, "revoked"⟩, by decide, rfl, rfl, rfl⟩, by decide⟩, ?_⟩
    intro h3
    exact ((hmem 3).mp h3).2 (by decide)
  · decide

/-- The missed-publication set is already disjoint from the ledger's
revoked set, so re-filtering it is the identity. -/
theorem missedIds_filter_not_mem (w : World) (rid : String) :
    (missedIds w rid).filter (fun i => i ∉ w.ledgerRevoked) = missedIds w rid := by
  apply List.filter_eq_self.mpr
  intro a ha
  exact (List.mem_filter.mp ha).2

/-- Claim C3 (counterexample): a rejection whose reason contains
`"InvalidClientRequest"` does trigger the repair, but when the repair finds
no missed publication its applied transaction is the empty dict and the
metadata extraction `rev_entry_res["result"]["txnMetadata"]` raises
`KeyError` — the call does not return a FINISHED result. -/
theorem c3_counterexample :
    register_revocation_status_list
      { ledgerRevoked := [3], ledgerAccum := "acc", walletRecs := [⟨"RR", 3, "revoked"⟩],
        submissions := [], nextSeqNo := 5 }
      ⟨"issuer", "cd", "CL_ACCUM", "tag", ⟨5, "pk", "th", "tl"⟩⟩
      ⟨"issuer", "RR", [3], some "acc"⟩ "genesis"
      (.txnError
        "Ledger rejected transaction request: client request invalid: InvalidClientRequest(...)") =
      ({ ledgerRevoked := [3], ledgerAccum := "acc", walletRecs := [⟨"RR", 3, "revoked"⟩],
         submissions := [], nextSeqNo := 5 },
       .error (.keyError "txnMetadata")) := by
  rfl

/-- Claim C3 (amended): when `register_revocation_status_list`'s ledger
write raises `LedgerTransactionError`, the rejection reason decides the
outcome.  A reason containing `"InvalidClientRequest"` triggers exactly one
repair via `fix_ledger_entry` with apply = true: if the repair found missed
publications the call returns FINISHED carrying the corrective
transaction's metadata (with exactly that one corrective submission added);
if it found none, the call fails with an uncaught `KeyError` instead of
FINISHED.  A reason containing `"InvalidClientTaaAcceptanceError"` (and not
the former) raises a fatal TAA registration error with no ledger activity;
any other reason raises a fatal unknown-issue registration error with no
ledger activity. -/
theorem c3_status_list_rejection_classification (w : World)
    (rev_reg_def : RevRegDef) (rsl : RevStatusList) (genesis roll_up : String) :
    (pyStrIn "InvalidClientRequest" roll_up = true →
       (missedIds w rsl.rev_reg_id ≠ [] →
          register_revocation_status_list w rev_reg_def rsl genesis
              (.txnError roll_up) =
            ({ w with
                ledgerRevoked := w.ledgerRevoked ++ missedIds w rsl.rev_reg_id
                submissions := w.submissions ++
                  [{ revoked := missedIds w rsl.rev_reg_id }]
                nextSeqNo := w.nextSeqNo + 1 },
             .ok { job_id := none
                   revocation_status_list_state :=
                     { state := .finished, revocation_status_list := rsl }
                   registration_metadata := []
                   revocation_status_list_metadata := [("seqNo", w.nextSeqNo)] })) ∧
       (missedIds w rsl.rev_reg_id = [] →
          register_revocation_status_list w rev_reg_def rsl genesis
              (.txnError roll_up) =
            (w, .error (.keyError "txnMetadata")))) ∧
    (pyStrIn "InvalidClientRequest" roll_up = false →
       pyStrIn "InvalidClientTaaAcceptanceError" roll_up = true →
       register_revocation_status_list w rev_reg_def rsl genesis
           (.txnError roll_up) =
         (w, .error (.anoncreds (.registrationError
            "Ledger update failed due to TAA Issue")))) ∧
    (pyStrIn "InvalidClientRequest" roll_up = false →
       pyStrIn "InvalidClientTaaAcceptanceError" roll_up = false →
       register_revocation_status_list w rev_reg_def rsl genesis
           (.txnError roll_up) =
         (w, .error (.anoncreds (.registrationError
            "Ledger update failed due to unknown issue")))) := by
  refine ⟨fun hicr => ⟨fun hne => ?_, fun hnil => ?_⟩,
    fun hicr htaa => ?_, fun hicr htaa => ?_⟩
  · simp only [register_revocation_status_list, hicr, if_true]
    rw [fix_ledger_entry_eq, if_neg hne]
    simp [missedIds_filter_not_mem]
    intro a ha
    simpa using (List.mem_filter.mp ha).2
  · simp only [register_revocation_status_list, hicr, if_true]
    rw [fix_ledger_entry_eq, if_pos hnil]
  · simp [register_revocation_status_list, hicr, htaa]
  · simp [register_revocation_status_list, hicr, htaa]

/-- Witness for the amended C3 theorem: an `InvalidClientRequest` rejection
with wallet-revoked `{3, 7}` and ledger-revoked `{3}` repairs the ledger
with one corrective submission `{7}` and returns FINISHED with the
corrective transaction's sequence number. -/
theorem c3_witness :
    register_revocation_status_list
      { ledgerRevoked := [3], ledgerAccum := "acc",
        walletRecs := [⟨"RR", 3, "revoked"⟩, ⟨"RR", 7, "revoked"⟩],
        submissions := [], nextSeqNo := 5 }
      ⟨"issuer", "cd", "CL_ACCUM", "tag", ⟨5, "pk", "th", "tl"⟩⟩
      ⟨"issuer", "RR", [3, 7], some "acc"⟩ "genesis"
      (.txnError
        "Ledger rejected transaction request: client request invalid: InvalidClientRequest(...)") =
      ({ ledgerRevoked := [3, 7], ledgerAccum := "acc",
         walletRecs := [⟨"RR", 3, "revoked"⟩, ⟨"RR", 7, "revoked"⟩],
         submissions := [{ revoked := [7] }], nextSeqNo := 6 },
       .ok { job_id := none
             revocation_status_list_state :=
               { state := .finished
                 revocation_status_list := ⟨"issuer", "RR", [3, 7], some "acc"⟩ }
             registration_metadata := []
             revocation_status_list_metadata := [("seqNo", 5)] }) := by
  exact ((c3_status_list_rejection_classification
    { ledgerRevoked := [3], ledgerAccum := "acc",
      walletRecs := [⟨"RR", 3, "revoked"⟩, ⟨"RR", 7, "revoked"⟩],
      submissions := [], nextSeqNo := 5 }
    ⟨"issuer", "cd", "CL_ACCUM", "tag", ⟨5, "pk", "th", "tl"⟩⟩
    ⟨"issuer", "RR", [3, 7], some "acc"⟩ "genesis"
    "Ledger rejected transaction request: client request invalid: InvalidClientRequest(...)").1
    (by decide)).1 (by decide)

/-- Claim C4 (counterexample): when the ledger reports that a credential
definition already exists, `register_credential_definition` raises
`AnonCredsObjectAlreadyExists` carrying only a message — no existing
artifact reconstructed from the ledger's returned copy is attached
(the carried object is `none`). -/
theorem c4_counterexample :
    register_credential_definition true true "prof" true
      (.ok (some ⟨"cdid", "9", "CL", "tag0", "val"⟩))
      { schema := { issuer_id := "i", attr_names := [], name := "n", version := "v" }
        schema_id := "sid"
        resolution_metadata := []
        schema_metadata := [("seqNo", 9)] }
      ⟨"iss", "sid", some "CL", some "tag0", "val"⟩ [] (.alreadyExists "object already exists") =
      .error (.anoncreds (.objectAlreadyExists
        "Credential definition with id iss:3:CL:9:tag0 already exists in wallet and on ledger."
        none)) := by
  rfl

/-- Claim C4 (amended): on an object-already-exists response the operation
always fails, never reporting success; `register_schema` raises
`AnonCredsSchemaAlreadyExists` carrying the schema reconstructed from the
ledger's returned copy (every field from the ledger object, none from the
caller's schema), while `register_credential_definition` raises
`AnonCredsObjectAlreadyExists` carrying a message only and no artifact. -/
theorem c4_already_exists_payloads (walletTypeSet : Bool)
    (schema : AnonCredsSchema) (message obj_id : String) (obj : IndySchemaObj)
    (profileName : String) (inWallet : Bool) (resObj : LedgerCredDefObj)
    (gs : GetSchemaResult) (cd : CredDef) (options : List (String × Nat))
    (cdMsg cred_def_id : String)
    (hid : make_cred_def_id gs cd = .ok cred_def_id) :
    (register_schema true walletTypeSet schema (.alreadyExists message obj_id obj) =
       .error (.anoncreds (.schemaAlreadyExists message obj_id
         { issuer_id := firstColonField obj.id
           attr_names := obj.attrNames
           name := obj.name
           version := obj.version }))) ∧
    (register_credential_definition true walletTypeSet profileName inWallet
        (.ok (some resObj)) gs cd options (.alreadyExists cdMsg) =
       .error (.anoncreds (.objectAlreadyExists
         (if inWallet then
            "Credential definition with id " ++ cred_def_id ++
              " already exists in wallet and on ledger."
          else
            "Credential definition " ++ cred_def_id ++
              " is on ledger but not in wallet " ++ profileName) none))) := by
  constructor
  · rfl
  · simp only [register_credential_definition, hid]
    cases inWallet <;> simp only [get_credential_definition] <;> rfl

/-- Witness for the amended C4 theorem at concrete inputs (the
`inWallet = false` branch of the credential-definition side). -/
theorem c4_witness :
    register_credential_definition true true "prof" false
      (.ok (some ⟨"cdid", "9", "CL", "tag0", "val"⟩))
      { schema := { issuer_id := "i", attr_names := [], name := "n", version := "v" }
        schema_id := "sid"
        resolution_metadata := []
        schema_metadata := [("seqNo", 9)] }
      ⟨"iss", "sid", some "CL", some "tag0", "val"⟩ [] (.alreadyExists "object already exists") =
      .error (.anoncreds (.objectAlreadyExists
        "Credential definition iss:3:CL:9:tag0 is on ledger but not in wallet prof"
        none)) := by
  exact (c4_already_exists_payloads true
    { issuer_id := "x", attr_names := [], name := "x", version := "x" }
    "m" "oid" ⟨"1.0", "id", "n", "v", []⟩ "prof" false
    ⟨"cdid", "9", "CL", "tag0", "val"⟩
    { schema := { issuer_id := "i", attr_names := [], name := "n", version := "v" }
      schema_id := "sid"
      resolution_metadata := []
      schema_metadata := [("seqNo", 9)] }
    ⟨"iss", "sid", some "CL", some "tag0", "val"⟩ [] "object already exists"
    "iss:3:CL:9:tag0" rfl).2

/-- `register_revocation_registry_definition` with a configured (truthy)
base URL, rephrased: the artifact's `tails_location` is overwritten first,
then the URL gate and the ledger outcome decide the result. -/
theorem register_rev_reg_def_eq (url : String) (rrd : RevRegDef)
    (outcome : SendRevRegDefOutcome) (hu : pyFalsy (some url) = false) :
    register_revocation_registry_definition (some url) rrd outcome =
      (let loc := pyRstripSlash url ++ "/" ++ make_rev_reg_def_id rrd
       let rrd2 := withTailsLocation rrd loc
       if !(check_url_ok loc) then
         (.error (.revocation ("URI " ++ loc ++ " is not a valid URL")), rrd2, 0)
       else
         match outcome with
         | .ok seq_no =>
             (.ok { job_id := none
                    revocation_registry_definition_state :=
                      { state := .finished
                        revocation_registry_definition_id := make_rev_reg_def_id rrd
                        revocation_registry_definition := rrd2 }
                    registration_metadata := []
                    revocation_registry_definition_metadata := [("seqNo", seq_no)] },
              rrd2, 1)
         | .ledgerError _ =>
             (.error (.anoncreds (.registrationError "")), rrd2, 1)) := by
  simp only [register_revocation_registry_definition, hu, Bool.false_eq_true,
    if_false, Option.getD_some]
  rfl

/-- Claim C7: with no (or an empty) tails-server base URL configured,
`register_revocation_registry_definition` fails at once with the
configuration `AnonCredsRegistrationError` and zero ledger calls; with a
configured base URL it sets the artifact's `tails_location` to the base URL
with trailing slashes stripped, then `"/"`, then the derived revocation
registry definition id, and when that URL fails the scheme/host/path check
it fails with `RevocationError` before any ledger call. -/
theorem c7_tails_url_gating (rrd : RevRegDef) (outcome : SendRevRegDefOutcome) :
    (∀ base, pyFalsy base = true →
       register_revocation_registry_definition base rrd outcome =
         (.error (.anoncreds (.registrationError
            "tails_server_base_url not configured")), rrd, 0)) ∧
    (∀ url, pyFalsy (some url) = false →
       ((register_revocation_registry_definition (some url) rrd
           outcome).2.1.value.tails_location =
          pyRstripSlash url ++ "/" ++ make_rev_reg_def_id rrd) ∧
       (check_url_ok (pyRstripSlash url ++ "/" ++ make_rev_reg_def_id rrd) = false →
          register_revocation_registry_definition (some url) rrd outcome =
            (.error (.revocation ("URI " ++
               (pyRstripSlash url ++ "/" ++ make_rev_reg_def_id rrd) ++
               " is not a valid URL")),
             withTailsLocation rrd
               (pyRstripSlash url ++ "/" ++ make_rev_reg_def_id rrd), 0))) := by
  constructor
  · intro base hb
    cases base with
    | none => rfl
    | some s =>
        simp only [register_revocation_registry_definition, hb, if_true]
  · intro url hu
    rw [register_rev_reg_def_eq url rrd outcome hu]
    constructor
    · by_cases hc : check_url_ok (pyRstripSlash url ++ "/" ++ make_rev_reg_def_id rrd)
      · simp only [hc, Bool.not_true, Bool.false_eq_true, if_false]
        cases outcome <;> rfl
      · simp only [Bool.not_eq_true] at hc
        simp only [hc, Bool.not_false, if_true]
        rfl
    · intro hbad
      simp only [hbad, Bool.not_false, if_true]

/-- Witness for C7: a missing base URL fails before any ledger call, and
with base URL `https://tails.example/` the computed `tails_location` is the
base joined with the derived id and passes the URL check. -/
theorem c7_witness :
    (register_revocation_registry_definition none
        ⟨"iss", "cd", "CL_ACCUM", "tag0", ⟨5, "pk", "th", "caller-loc"⟩⟩ (.ok 42) =
      (.error (.anoncreds (.registrationError "tails_server_base_url not configured")),
       ⟨"iss", "cd", "CL_ACCUM", "tag0", ⟨5, "pk", "th", "caller-loc"⟩⟩, 0)) ∧
    ((register_revocation_registry_definition (some "https://tails.example/")
        ⟨"iss", "cd", "CL_ACCUM", "tag0", ⟨5, "pk", "th", "caller-loc"⟩⟩
        (.ok 42)).2.1.value.tails_location =
      "https://tails.example/iss:4:cd:CL_ACCUM:tag0") ∧
    check_url_ok "https://tails.example/iss:4:cd:CL_ACCUM:tag0" = true := by
  refine ⟨(c7_tails_url_gating
      ⟨"iss", "cd", "CL_ACCUM", "tag0", ⟨5, "pk", "th", "caller-loc"⟩⟩ (.ok 42)).1
      none rfl, ?_, by decide⟩
  exact ((c7_tails_url_gating
    ⟨"iss", "cd", "CL_ACCUM", "tag0", ⟨5, "pk", "th", "caller-loc"⟩⟩ (.ok 42)).2
    "https://tails.example/" (by decide)).1

/-- Claim C10: whenever the tails base URL is configured,
`register_revocation_registry_definition` leaves the caller's `RevRegDef`
with its `value.tails_location` overwritten by the computed URL — for every
ledger outcome and regardless of whether the call fails on URL validation
or on the ledger — so a caller-supplied `tails_location` is discarded. -/
theorem c10_tails_location_overwritten (url : String) (rrd : RevRegDef)
    (outcome : SendRevRegDefOutcome) (hu : pyFalsy (some url) = false) :
    (register_revocation_registry_definition (some url) rrd outcome).2.1 =
      withTailsLocation rrd
        (pyRstripSlash url ++ "/" ++ make_rev_reg_def_id rrd) := by
  rw [register_rev_reg_def_eq url rrd outcome hu]
  by_cases hc : check_url_ok (pyRstripSlash url ++ "/" ++ make_rev_reg_def_id rrd)
  · simp only [hc, Bool.not_true, Bool.false_eq_true, if_false]
    cases outcome <;> rfl
  · simp only [Bool.not_eq_true] at hc
    simp only [hc, Bool.not_false, if_true]

/-- Witness for C10: with a caller-supplied `tails_location` and a failing
ledger write, the caller's artifact still ends up with the overwritten
computed location. -/
theorem c10_witness :
    (register_revocation_registry_definition (some "https://tails.example/")
        ⟨"iss", "cd", "CL_ACCUM", "tag0", ⟨5, "pk", "th", "caller-loc"⟩⟩
        (.ledgerError "write failed")).2.1 =
      ⟨"iss", "cd", "CL_ACCUM", "tag0",
       ⟨5, "pk", "th", "https://tails.example/iss:4:cd:CL_ACCUM:tag0"⟩⟩ := by
  exact c10_tails_location_overwritten "https://tails.example/"
    ⟨"iss", "cd", "CL_ACCUM", "tag0", ⟨5, "pk", "th", "caller-loc"⟩⟩
    (.ledgerError "write failed") (by decide)

/-- Claim C8 (counterexample): a `LedgerError` raised during
`get_credential_definition`'s ledger read propagates to the caller as the
native ledger exception — it is not wrapped into a domain
`AnonCredsResolutionError`. -/
theorem c8_counterexample :
    get_credential_definition true true "CDID" (.ledgerError "ledger timeout") =
      .error (.ledger "ledger timeout") := by
  rfl

/-- Claim C8 (amended): `get_schema` catches every `LedgerError` from the
read and re-raises it as `AnonCredsResolutionError` preserving the
underlying cause, and reports an absent object as the distinct
`AnonCredsObjectNotFound`; `get_credential_definition` reports an absent
object as `AnonCredsObjectNotFound` but has no handler around its read, so
a `LedgerError` raised there propagates natively to the caller. -/
theorem c8_resolver_error_propagation (walletTypeSet : Bool)
    (ledger_id : Option String) (schema_id cred_def_id m : String) :
    (get_schema true walletTypeSet ledger_id schema_id (.ledgerError m) =
       .error (.anoncreds (.resolutionError "Failed to retrieve schema" (some m)))) ∧
    (get_schema true walletTypeSet ledger_id schema_id (.ok none) =
       .error (.anoncreds (.objectNotFound
         ("Credential definition not found: " ++ schema_id)))) ∧
    (get_credential_definition true walletTypeSet cred_def_id (.ledgerError m) =
       .error (.ledger m)) ∧
    (get_credential_definition true walletTypeSet cred_def_id (.ok none) =
       .error (.anoncreds (.objectNotFound
         ("Credential definition not found: " ++ cred_def_id)))) :=
  ⟨rfl, rfl, rfl, rfl⟩
